import Mathlib

/-!
# Verification of the apple-health-wrapped aggregation engine

A shallow embedding of `src/server/main.py`: the raw single-pass scan
(`_scan_records_once`), the structured-table path, the dual-path merge, the
workout tabulator and the summary synthesis inside `parse`.

Modelling conventions:
* Python floats are modelled as exact rationals (`ℚ`); Python ints as `Int`.
* `datetime` values are modelled as UTC epoch seconds (`Int`); a timestamp
  that fails to parse (`_parse_dt` returning `None`, or `pd.to_datetime`
  coercing to `NaT`) is `Option.none`.  The textual timestamp grammar itself
  is abstracted behind the `Option`.
* `dict` / `defaultdict` / `Counter` accumulators are association lists in
  insertion order (CPython dicts preserve insertion order); Python `set` is a
  duplicate-free list.
* `round` is half-to-even (`pyRoundInt`), `int(...)` truncates toward zero
  (`pyTruncInt`).
-/

/-- Python `round(x)` (banker's rounding, half-to-even) on an exact rational. -/
def pyRoundInt (q : ℚ) : Int :=
  let f := ⌊q⌋
  if q - (f : ℚ) < 1/2 then f
  else if 1/2 < q - (f : ℚ) then f + 1
  else if f % 2 = 0 then f else f + 1

/-- Python `round(x, 2)`. -/
def pyRound2 (q : ℚ) : ℚ := (pyRoundInt (q * 100) : ℚ) / 100

/-- Python `round(x, 1)`. -/
def pyRound1 (q : ℚ) : ℚ := (pyRoundInt (q * 10) : ℚ) / 10

/-- Python `int(x)` on a float: truncation toward zero. -/
def pyTruncInt (q : ℚ) : Int := Int.tdiv q.num (q.den : Int)

/-- Lowercasing, Python `str.lower` (ASCII fragment, which is all the code compares). -/
def lowerStr (s : String) : String := ⟨s.data.map Char.toLower⟩

/-- Lexicographic comparison of char lists by code point (Python string `<=`). -/
def lexLe : List Char → List Char → Bool
  | [], _ => true
  | _ :: _, [] => false
  | a :: as, b :: bs =>
    if a.toNat < b.toNat then true
    else if b.toNat < a.toNat then false
    else lexLe as bs

/-- Substring occurrence on char lists (Python `needle in hay`). -/
def subList (needle : List Char) : List Char → Bool
  | [] => needle.isEmpty
  | c :: rest => needle.isPrefixOf (c :: rest) || subList needle rest

/-- Python `needle in hay` on strings (case-sensitive substring containment). -/
def strContains (hay needle : String) : Bool := subList needle.data hay.data

/-- pandas `.str.contains(needle, case=False)`: case-insensitive containment. -/
def strContainsCI (hay needle : String) : Bool :=
  subList (lowerStr needle).data (lowerStr hay).data

/-- Python `str.replace(old, new)`: replace all non-overlapping occurrences,
left to right.  `fuel` is the length of the subject string. -/
def replaceFuel (new old : List Char) : Nat → List Char → List Char
  | 0, s => s
  | _ + 1, [] => []
  | fuel + 1, c :: rest =>
    if old.isPrefixOf (c :: rest) && !old.isEmpty then
      new ++ replaceFuel new old fuel ((c :: rest).drop old.length)
    else
      c :: replaceFuel new old fuel rest

/-- Python `s.replace(old, new)` (for nonempty `old`, the only use here). -/
def strReplace (s old new : String) : String :=
  ⟨replaceFuel new.data old.data s.data.length s.data⟩

/-- Digit-string value. -/
def digitsVal (l : List Char) : Nat := l.foldl (fun n c => n * 10 + (c.toNat - 48)) 0

/-- Exponent tail of a float literal: optional sign then digits, end of string. -/
def expTail (m : ℚ) (rest : List Char) : Option ℚ :=
  let p : Int × List Char :=
    match rest with
    | '+' :: r => (1, r)
    | '-' :: r => (-1, r)
    | r => (1, r)
  let ds := p.2.takeWhile Char.isDigit
  let r3 := p.2.dropWhile Char.isDigit
  if ds.isEmpty || !r3.isEmpty then none
  else some (m * (10 : ℚ) ^ (p.1 * (digitsVal ds : Int)))

/-- After the mantissa: either end of string or an exponent part. -/
def afterMant (m : ℚ) : List Char → Option ℚ
  | [] => some m
  | 'e' :: r => expTail m r
  | 'E' :: r => expTail m r
  | _ => none

/-- Unsigned decimal mantissa `digits [. digits] [exponent]`, needing at least
one digit. -/
def mantPart (l : List Char) : Option ℚ :=
  let ip := l.takeWhile Char.isDigit
  let rest := l.dropWhile Char.isDigit
  match rest with
  | '.' :: r2 =>
    let fp := r2.takeWhile Char.isDigit
    let r3 := r2.dropWhile Char.isDigit
    if ip.isEmpty && fp.isEmpty then none
    else afterMant ((digitsVal ip : ℚ) + (digitsVal fp : ℚ) / (10 : ℚ) ^ fp.length) r3
  | _ => if ip.isEmpty then none else afterMant (digitsVal ip : ℚ) rest

/-- Python `float(s)` on finite decimal literals (optional surrounding
whitespace, optional sign, digits/point/exponent).  `inf`/`nan` and
underscore separators are outside the fragment the program feeds it. -/
def pyFloat (s : String) : Option ℚ :=
  let l := ((s.data.dropWhile Char.isWhitespace).reverse.dropWhile Char.isWhitespace).reverse
  match l with
  | '+' :: r => mantPart r
  | '-' :: r => (mantPart r).map (fun q => -q)
  | r => mantPart r

/-- Civil date from days since the Unix epoch (Gregorian calendar),
returning `(year, month, day)`.  All intermediate divisions act on
nonnegative operands. -/
def civilFromDays (z0 : Int) : Int × Int × Int :=
  let z := z0 + 719468
  let era := z.fdiv 146097
  let doe := z - era * 146097
  let yoe := (doe - doe / 1460 + doe / 36524 - doe / 146096) / 365
  let y := yoe + era * 400
  let doy := doe - (365 * yoe + yoe / 4 - yoe / 100)
  let mp := (5 * doy + 2) / 153
  let d := doy - (153 * mp + 2) / 5 + 1
  let m := if mp < 10 then mp + 3 else mp - 9
  (if m ≤ 2 then y + 1 else y, m, d)

/-- Zero-padded two-digit rendering. -/
def pad2 (n : Nat) : String := if n < 10 then "0" ++ toString n else toString n

/-- Zero-padded four-digit rendering (`strftime` `%Y`). -/
def pad4 (n : Nat) : String :=
  if n < 10 then "000" ++ toString n
  else if n < 100 then "00" ++ toString n
  else if n < 1000 then "0" ++ toString n
  else toString n

/-- `dt.astimezone(utc).strftime("%Y-%m-%d")` on an epoch-seconds instant. -/
def dayKeyOfSec (t : Int) : String :=
  let c := civilFromDays (t.fdiv 86400)
  pad4 c.1.toNat ++ "-" ++ pad2 c.2.1.toNat ++ "-" ++ pad2 c.2.2.toNat

/-- `dt.astimezone(utc).strftime("%Y-%m")` on an epoch-seconds instant. -/
def monthKeyOfSec (t : Int) : String :=
  let c := civilFromDays (t.fdiv 86400)
  pad4 c.1.toNat ++ "-" ++ pad2 c.2.1.toNat

-- sanity examples (calendar + float literal grammar)
example : dayKeyOfSec 0 = "1970-01-01" := by decide
example : pyFloat "12.5" = some (25/2) := by
  simp +decide [pyFloat, mantPart, afterMant, digitsVal, List.dropWhile, List.takeWhile]
  norm_num

/-! ## Association-list accumulators and argmax -/

/-- `defaultdict(float)` bump: `d[k] += v`, keys kept in insertion order. -/
def bumpQ (l : List (String × ℚ)) (k : String) (v : ℚ) : List (String × ℚ) :=
  match l with
  | [] => [(k, v)]
  | (k0, v0) :: rest => if k0 = k then (k0, v0 + v) :: rest else (k0, v0) :: bumpQ rest k v

/-- `Counter` bump: `c[k] += 1`. -/
def bumpNat (l : List (String × Nat)) (k : String) : List (String × Nat) :=
  match l with
  | [] => [(k, 1)]
  | (k0, v0) :: rest => if k0 = k then (k0, v0 + 1) :: rest else (k0, v0) :: bumpNat rest k

/-- Python `set.add` on a duplicate-free list model. -/
def insertSetStr (l : List String) (d : String) : List String :=
  if d ∈ l then l else l ++ [d]

/-- One step of Python `max(d, key=lambda k: d[k])`: a later entry replaces the
current best only when strictly greater, so the first maximum wins. -/
def pyMaxStep (best kv : String × ℚ) : String × ℚ :=
  if kv.2 > best.2 then kv else best

/-- `max(d, key=lambda k: d[k])` over an insertion-ordered mapping, with the
empty-mapping guard returning `""` (lines 222–228 of `main.py`); pandas
`Series.idxmax` on a sorted series is the same first-maximum rule. -/
def pyMaxKey : List (String × ℚ) → String
  | [] => ""
  | kv :: rest => (rest.foldl pyMaxStep kv).1

/-- Insert into a key-sorted association list (`sorted(d.items())` on distinct
keys sorts by key). -/
def insertByKey (kv : String × ℚ) : List (String × ℚ) → List (String × ℚ)
  | [] => [kv]
  | x :: xs => if lexLe kv.1.data x.1.data then kv :: x :: xs else x :: insertByKey kv xs

/-- `sorted(d.items())` for a mapping with distinct keys. -/
def sortPairs (l : List (String × ℚ)) : List (String × ℚ) :=
  l.foldl (fun acc kv => insertByKey kv acc) []

/-! ## The raw single-pass scan (`_scan_records_once`) -/

/-- A raw `<Record>` element after attribute extraction: `type`, the two
timestamps as parsed by `_parse_dt` (epoch seconds; `none` = attribute missing
or unparseable), and the raw `value` attribute. -/
structure Record where
  rtype : Option String
  startDate : Option Int
  endDate : Option Int
  value : Option String
deriving DecidableEq, Repr

/-- The fixed asleep allow-list (lines 113–120 and 319–326 of `main.py`). -/
def asleepValues : List String :=
  ["HKCategoryValueSleepAnalysisAsleep",
   "HKCategoryValueSleepAnalysisAsleepCore",
   "HKCategoryValueSleepAnalysisAsleepDeep",
   "HKCategoryValueSleepAnalysisAsleepREM",
   "HKCategoryValueSleepAnalysisAsleepUnspecified",
   "1"]

def stepsId : String := "HKQuantityTypeIdentifierStepCount"
def energyId : String := "HKQuantityTypeIdentifierActiveEnergyBurned"
def hrId : String := "HKQuantityTypeIdentifierHeartRate"
def rhrId : String := "HKQuantityTypeIdentifierRestingHeartRate"
def sleepId : String := "HKCategoryTypeIdentifierSleepAnalysis"
def mindfulId : String := "HKCategoryTypeIdentifierMindfulSession"

/-- `try: v = float(val) if val is not None else 0.0 except: v = 0.0`. -/
def floatOr0 (v : Option String) : ℚ :=
  match v with
  | none => 0
  | some s => (pyFloat s).getD 0

/-- Accumulator state of `_scan_records_once` (lines 80–98). -/
structure ScanState where
  steps_total : ℚ := 0
  steps_daily : List (String × ℚ) := []
  steps_monthly : List (String × ℚ) := []
  energy_total : ℚ := 0
  energy_daily : List (String × ℚ) := []
  hr_sum : ℚ := 0
  hr_count : Nat := 0
  rhr_sum : ℚ := 0
  rhr_count : Nat := 0
  sleep_total_hours : ℚ := 0
  sleep_monthly_hours : List (String × ℚ) := []
  sleep_night_dates : List String := []
  mindful_total_min : ℚ := 0
  mindful_sessions : Nat := 0
deriving DecidableEq, Repr

/-- The per-record body of the `iterparse` loop (lines 123–214): classify by
`type` and accumulate.  A record with a missing or empty `type` is skipped
(`if not rtype`). -/
def scanStep (s : ScanState) (r : Record) : ScanState :=
  match r.rtype with
  | none => s
  | some t =>
    if t = "" then s
    else if t = stepsId then
      let v := floatOr0 r.value
      match r.startDate with
      | some st =>
        if v > 0 then
          { s with steps_total := s.steps_total + v,
                   steps_daily := bumpQ s.steps_daily (dayKeyOfSec st) v,
                   steps_monthly := bumpQ s.steps_monthly (monthKeyOfSec st) v }
        else s
      | none => s
    else if t = energyId then
      let v := floatOr0 r.value
      match r.startDate with
      | some st =>
        if v > 0 then
          { s with energy_total := s.energy_total + v,
                   energy_daily := bumpQ s.energy_daily (dayKeyOfSec st) v }
        else s
      | none => s
    else if t = hrId then
      let v := floatOr0 r.value
      if v > 0 then { s with hr_sum := s.hr_sum + v, hr_count := s.hr_count + 1 } else s
    else if t = rhrId then
      let v := floatOr0 r.value
      if v > 0 then { s with rhr_sum := s.rhr_sum + v, rhr_count := s.rhr_count + 1 } else s
    else if t = sleepId then
      match r.startDate, r.endDate with
      | some st, some en =>
        if en > st then
          let raw := r.value.getD ""
          if raw ∈ asleepValues || strContains raw "Asleep" then
            let hours := ((en - st : Int) : ℚ) / 3600
            if hours > 0 then
              { s with sleep_total_hours := s.sleep_total_hours + hours,
                       sleep_monthly_hours := bumpQ s.sleep_monthly_hours (monthKeyOfSec st) hours,
                       sleep_night_dates := insertSetStr s.sleep_night_dates (dayKeyOfSec st) }
            else s
          else s
        else s
      | _, _ => s
    else if t = mindfulId then
      match r.startDate, r.endDate with
      | some st, some en =>
        if en > st then
          let minutes := ((en - st : Int) : ℚ) / 60
          if minutes > 0 then
            { s with mindful_total_min := s.mindful_total_min + minutes,
                     mindful_sessions := s.mindful_sessions + 1 }
          else s
        else s
      | _, _ => s
    else s

/-- The full accumulation pass of `_scan_records_once` over the record stream. -/
def scanFold (rs : List Record) : ScanState := rs.foldl scanStep {}

/-- The result dictionary shape of `_scan_records_once` (lines 230–254). -/
structure ScanOut where
  steps_total : Int
  steps_average : Int
  steps_bestMonth : String
  steps_monthlyData : List (String × Int)
  energy_total : ℚ
  energy_average : Int
  heart_avg : Int
  heart_rest : Int
  sleep_totalHours : ℚ
  sleep_averageHours : ℚ
  sleep_bestMonth : String
  mindful_total : ℚ
  mindful_sessions : Nat
deriving DecidableEq, Repr

/-- Result synthesis of `_scan_records_once` (lines 216–254). -/
def scanOut (s : ScanState) : ScanOut :=
  let steps_days : Nat := max 1 s.steps_daily.length
  let energy_days : Nat := max 1 s.energy_daily.length
  let sleep_nights : Nat := max 1 s.sleep_night_dates.length
  { steps_total := pyRoundInt s.steps_total
    steps_average := pyRoundInt (s.steps_total / (steps_days : ℚ))
    steps_bestMonth := pyMaxKey s.steps_monthly
    steps_monthlyData := (sortPairs s.steps_monthly).map (fun p => (p.1, pyRoundInt p.2))
    energy_total := s.energy_total
    energy_average := pyRoundInt (s.energy_total / (energy_days : ℚ))
    heart_avg := if s.hr_count ≠ 0 then pyRoundInt (s.hr_sum / (s.hr_count : ℚ)) else 0
    heart_rest := if s.rhr_count ≠ 0 then pyRoundInt (s.rhr_sum / (s.rhr_count : ℚ)) else 0
    sleep_totalHours := pyRound2 s.sleep_total_hours
    sleep_averageHours :=
      if s.sleep_total_hours ≠ 0 then pyRound2 (s.sleep_total_hours / (sleep_nights : ℚ)) else 0
    sleep_bestMonth := pyMaxKey s.sleep_monthly_hours
    mindful_total := if s.mindful_total_min ≠ 0 then pyRound2 s.mindful_total_min else 0
    mindful_sessions := s.mindful_sessions }

/-- `_scan_records_once` end to end on the record stream. -/
def scanRecordsOnce (rs : List Record) : ScanOut := scanOut (scanFold rs)

/-! ## The structured-table path inside `parse` -/

/-- A normalized structured-table row after `_df_for` (lines 51–72): `_sd` and
`_ed` as UTC instants (`NaT` modelled as `none`), and the unwrapped raw value
`_value_raw` (string-valued, as everything the program compares it against;
missing = `none`).  `_value_num` and `_value_str` are derived below. -/
structure Row where
  sd : Option Int
  ed : Option Int
  value : Option String
deriving DecidableEq, Repr

/-- `_value_num`: `pd.to_numeric(_value_raw, errors="coerce")`. -/
def valueNum (r : Row) : Option ℚ :=
  match r.value with
  | none => none
  | some s => pyFloat s

/-- Insert into a sorted string list. -/
def insertStr (s : String) : List String → List String
  | [] => [s]
  | x :: xs => if lexLe s.data x.data then s :: x :: xs else x :: insertStr s xs

/-- Sort a list of strings ascending (pandas sorted group keys / `sort_index`). -/
def sortStrs (l : List String) : List String := l.foldl (fun acc s => insertStr s acc) []

/-- `groupby(key)[col].sum().sort_index()`: distinct keys sorted ascending,
each with the sum of its values (pandas sums skip NaN, which the callers
encode as 0 contributions). -/
def groupSumSorted (pairs : List (String × ℚ)) : List (String × ℚ) :=
  (sortStrs (pairs.map Prod.fst).dedup).map
    (fun k => (k, ((pairs.filter (fun p => p.1 = k)).map Prod.snd).sum))

/-- The day keys of rows whose start parsed (`groupby` drops `NaT` keys). -/
def rowDayKeys (rows : List Row) : List String :=
  rows.filterMap (fun r => r.sd.map dayKeyOfSec)

/-- `(month-key, numeric value or 0)` for rows whose start parsed. -/
def rowMonthNums (rows : List Row) : List (String × ℚ) :=
  rows.filterMap (fun r => r.sd.map (fun t => (monthKeyOfSec t, (valueNum r).getD 0)))

/-- Structured-path steps result (lines 265–284): totals over all numeric
values (`fillna(0).sum()`, truncated by `int`), buckets only when the total is
strictly positive.  The last component is the Python local `daily_step_days`
(0 unless set), which the energy category reuses. -/
def structuredSteps (t : Option (List Row)) : Int × Int × String × List (String × Int) × Nat :=
  match t with
  | none => (0, 0, "", [], 0)
  | some rows =>
    let total : Int := pyTruncInt ((rows.map (fun r => (valueNum r).getD 0)).sum)
    if total > 0 then
      let dayCount := (rowDayKeys rows).dedup.length
      let dsd := if dayCount = 0 then 1 else dayCount
      let avg := pyRoundInt ((total : ℚ) / (dsd : ℚ))
      let monthly := groupSumSorted (rowMonthNums rows)
      let best := if monthly.isEmpty then "" else pyMaxKey monthly
      (total, avg, best, monthly.map (fun p => (p.1, pyTruncInt p.2)), dsd)
    else (total, 0, "", [], 0)

/-- Structured-path active energy (lines 286–295): `(energy_total, energy_avg)`;
the day-count fallback chain is `energy day groups or (daily_step_days or 1)`. -/
def structuredEnergy (t : Option (List Row)) (daily_step_days : Nat) : ℚ × Int :=
  match t with
  | none => (0, 0)
  | some rows =>
    let total : ℚ := (rows.map (fun r => (valueNum r).getD 0)).sum
    if total > 0 then
      let dayCount := (rowDayKeys rows).dedup.length
      let days := if dayCount ≠ 0 then dayCount
                  else if daily_step_days ≠ 0 then daily_step_days else 1
      (total, pyRoundInt (total / (days : ℚ)))
    else (total, 0)

/-- Structured-path heart-rate average (lines 297–311, same for resting):
`dropna` then plain mean of everything numeric, rounded; 0 when no numeric
values. -/
def structuredHr (t : Option (List Row)) : Int :=
  match t with
  | none => 0
  | some rows =>
    let vals := rows.filterMap valueNum
    if vals.length ≠ 0 then pyRoundInt (vals.sum / (vals.length : ℚ)) else 0

/-- The structured-path asleep mask (lines 327–329): allow-list membership on
the raw value, or case-insensitive substring `"Asleep"` on its string form. -/
def structAsleepRow (r : Row) : Bool :=
  (match r.value with
   | some s => s ∈ asleepValues
   | none => false) ||
  (match r.value with
   | some s => strContainsCI s "Asleep"
   | none => false)

/-- Row duration in hours (line 332–334): `(_ed - _sd)` seconds over 3600,
clipped below at 0; a missing endpoint gives NaT → NaN, which the later sums
skip (modelled as 0). -/
def rowHours (r : Row) : ℚ :=
  match r.sd, r.ed with
  | some s, some e => max 0 (((e - s : Int) : ℚ) / 3600)
  | _, _ => 0

/-- Row duration in minutes (lines 350–352), same conventions. -/
def rowMinutes (r : Row) : ℚ :=
  match r.sd, r.ed with
  | some s, some e => max 0 (((e - s : Int) : ℚ) / 60)
  | _, _ => 0

/-- Structured-path sleep (lines 313–343): `(totalHours, averageHours,
bestMonth)`.  The average divisor is `nunique` of start dates over all rows
passing the asleep mask — regardless of their duration validity. -/
def structuredSleep (t : Option (List Row)) : ℚ × ℚ × String :=
  match t with
  | none => (0, 0, "")
  | some rows =>
    let asleepRows := rows.filter structAsleepRow
    if asleepRows.isEmpty then (0, 0, "")
    else
      let total : ℚ := (asleepRows.map rowHours).sum
      if total > 0 then
        let dayCount := (rowDayKeys asleepRows).dedup.length
        let days := if dayCount = 0 then 1 else dayCount
        let monthly := groupSumSorted
          (asleepRows.filterMap (fun r => r.sd.map (fun t0 => (monthKeyOfSec t0, rowHours r))))
        let best := if monthly.isEmpty then "" else pyMaxKey monthly
        (total, pyRound2 (total / (days : ℚ)), best)
      else (total, 0, "")

/-- Structured-path mindfulness (lines 345–354): total clipped minutes, and a
session count that is the plain row count `shape[0]`. -/
def structuredMindful (t : Option (List Row)) : ℚ × Nat :=
  match t with
  | none => (0, 0)
  | some rows => ((rows.map rowMinutes).sum, rows.length)

/-- The six per-category structured tables handed over by the external parser
(`_df_for` result; `none` = absent, empty or raising). -/
structure StructuredInput where
  steps : Option (List Row)
  energy : Option (List Row)
  hr : Option (List Row)
  rhr : Option (List Row)
  sleep : Option (List Row)
  mindful : Option (List Row)

/-- All structured-path locals of `parse` just before the fallback decision
(state at line 355). -/
structure StructVals where
  steps_total : Int
  steps_avg : Int
  steps_best : String
  steps_monthly : List (String × Int)
  daily_step_days : Nat
  energy_total : ℚ
  energy_avg : Int
  hr_avg : Int
  rhr_avg : Int
  sleep_total : ℚ
  sleep_avg : ℚ
  sleep_best : String
  mind_total : ℚ
  mind_sessions : Nat
deriving DecidableEq, Repr

/-- Lines 265–354 of `parse`: run all six categories down the structured path. -/
def structuredPhase (inp : StructuredInput) : StructVals :=
  let st := structuredSteps inp.steps
  let en := structuredEnergy inp.energy st.2.2.2.2
  let sl := structuredSleep inp.sleep
  let mi := structuredMindful inp.mindful
  { steps_total := st.1
    steps_avg := st.2.1
    steps_best := st.2.2.1
    steps_monthly := st.2.2.2.1
    daily_step_days := st.2.2.2.2
    energy_total := en.1
    energy_avg := en.2
    hr_avg := structuredHr inp.hr
    rhr_avg := structuredHr inp.rhr
    sleep_total := sl.1
    sleep_avg := sl.2.1
    sleep_best := sl.2.2
    mind_total := mi.1
    mind_sessions := mi.2 }

/-! ## The dual-path merge (lines 356–386) -/

def needSteps (sv : StructVals) : Bool := decide (sv.steps_total = 0)
def needEnergy (sv : StructVals) : Bool := decide (sv.energy_total = 0)
def needHr (sv : StructVals) : Bool := decide (sv.hr_avg = 0 ∧ sv.rhr_avg = 0)
def needSleep (sv : StructVals) : Bool := decide (sv.sleep_total = 0)
def needMindful (sv : StructVals) : Bool := decide (sv.mind_total = 0)

/-- `any([need_steps, need_energy, need_hr, need_sleep, need_mindful])`. -/
def anyNeed (sv : StructVals) : Bool :=
  needSteps sv || needEnergy sv || needHr sv || needSleep sv || needMindful sv

/-- The merged per-category values feeding the final summary object. -/
structure MergedVals where
  steps_total : Int
  steps_avg : Int
  steps_best : String
  steps_monthly : List (String × Int)
  energy_total : ℚ
  energy_avg : Int
  hr_avg : Int
  rhr_avg : Int
  sleep_total : ℚ
  sleep_avg : ℚ
  sleep_best : String
  mind_total : ℚ
  mind_sessions : Nat
deriving DecidableEq, Repr

/-- Keeping the structured values untouched (no fallback branch taken). -/
def svToMerged (sv : StructVals) : MergedVals :=
  { steps_total := sv.steps_total
    steps_avg := sv.steps_avg
    steps_best := sv.steps_best
    steps_monthly := sv.steps_monthly
    energy_total := sv.energy_total
    energy_avg := sv.energy_avg
    hr_avg := sv.hr_avg
    rhr_avg := sv.rhr_avg
    sleep_total := sv.sleep_total
    sleep_avg := sv.sleep_avg
    sleep_best := sv.sleep_best
    mind_total := sv.mind_total
    mind_sessions := sv.mind_sessions }

/-- Lines 365–386: per-category overwrite of zero-yield structured results by
the scan results. -/
def mergeScan (sv : StructVals) (sc : ScanOut) : MergedVals :=
  { steps_total := if needSteps sv then sc.steps_total else sv.steps_total
    steps_avg := if needSteps sv then sc.steps_average else sv.steps_avg
    steps_best := if needSteps sv then sc.steps_bestMonth else sv.steps_best
    steps_monthly := if needSteps sv then sc.steps_monthlyData else sv.steps_monthly
    energy_total := if needEnergy sv then sc.energy_total else sv.energy_total
    energy_avg := if needEnergy sv then sc.energy_average else sv.energy_avg
    hr_avg := if needHr sv then sc.heart_avg else sv.hr_avg
    rhr_avg := if needHr sv then sc.heart_rest else sv.rhr_avg
    sleep_total := if needSleep sv then sc.sleep_totalHours else sv.sleep_total
    sleep_avg := if needSleep sv then sc.sleep_averageHours else sv.sleep_avg
    sleep_best := if needSleep sv then sc.sleep_bestMonth else sv.sleep_best
    mind_total := if needMindful sv then sc.mindful_total else sv.mind_total
    mind_sessions := if needMindful sv then sc.mindful_sessions else sv.mind_sessions }

/-- Lines 356–386 as a whole: the merged values. -/
def dualPathVals (inp : StructuredInput) (records : List Record) : MergedVals :=
  let sv := structuredPhase inp
  if anyNeed sv then mergeScan sv (scanRecordsOnce records) else svToMerged sv

/-- How many times `_scan_records_once` runs for this export. -/
def scanPasses (inp : StructuredInput) : Nat :=
  if anyNeed (structuredPhase inp) then 1 else 0

/-! ## Workout tabulator (lines 388–405) -/

structure Workout where
  activityType : Option String
  duration : Option String
  durationUnit : Option String
deriving DecidableEq, Repr

/-- `(w.attrib.get("workoutActivityType") or "Other").replace("HKWorkoutActivityType", "")`. -/
def workoutKind (w : Workout) : String :=
  let a := match w.activityType with
    | none => "Other"
    | some s => if s = "" then "Other" else s
  strReplace a "HKWorkoutActivityType" ""

def unitHours : List String := ["hr", "hour", "hours"]

/-- Duration-to-minutes conversion of one workout (lines 397–405): `none`
models the `ValueError` path, which adds nothing to the minute total. -/
def workoutMinutes (w : Workout) : Option ℚ :=
  let d0 : Option ℚ :=
    match w.duration with
    | none => some 0
    | some s => pyFloat s
  d0.map (fun d =>
    if lowerStr (w.durationUnit.getD "") ∈ unitHours then d * 60 else d)

/-- The workout loop: `(wk_count, wk_types, wk_total_minutes)`. -/
def workoutsFold (ws : List Workout) : Nat × List (String × Nat) × ℚ :=
  (ws.length,
   ws.foldl (fun acc w => bumpNat acc (workoutKind w)) [],
   (ws.map (fun w => (workoutMinutes w).getD 0)).sum)

/-! ## The final summary object (lines 407–445) -/

structure Metrics where
  steps_total : Int
  steps_average : Int
  steps_bestMonth : String
  steps_monthlyData : List (String × Int)
  workouts_total : Nat
  workouts_types : List (String × Nat)
  workouts_totalMinutes : Int
  sleep_averageHours : ℚ
  sleep_totalHours : ℚ
  sleep_bestMonth : String
  heartRate_average : Int
  heartRate_resting : Int
  activeEnergy_total : ℚ
  activeEnergy_average : Int
  mindfulMinutes_total : ℚ
  mindfulMinutes_sessions : Nat
  insights_topAchievement : String
  insights_funFactKm : ℚ
  insights_yearComparison : String
deriving DecidableEq, Repr

/-- Lines 407–445: assemble the summary.  `insights_funFactKm` is the numeric
`steps_km = round(steps_total * 0.0008, 1)` inside the constant fun-fact text. -/
def buildMetrics (mv : MergedVals) (ws : List Workout) : Metrics :=
  let wk := workoutsFold ws
  { steps_total := mv.steps_total
    steps_average := mv.steps_avg
    steps_bestMonth := mv.steps_best
    steps_monthlyData := mv.steps_monthly
    workouts_total := wk.1
    workouts_types := wk.2.1
    workouts_totalMinutes := pyRoundInt wk.2.2
    sleep_averageHours := mv.sleep_avg
    sleep_totalHours := pyRound2 mv.sleep_total
    sleep_bestMonth := mv.sleep_best
    heartRate_average := mv.hr_avg
    heartRate_resting := mv.rhr_avg
    activeEnergy_total := pyRound2 mv.energy_total
    activeEnergy_average := mv.energy_avg
    mindfulMinutes_total := pyRound2 mv.mind_total
    mindfulMinutes_sessions := mv.mind_sessions
    insights_topAchievement :=
      if mv.steps_best ≠ "" then mv.steps_best ++ " was your steps peak!" else ""
    insights_funFactKm := pyRound1 ((mv.steps_total : ℚ) * (8/10000))
    insights_yearComparison :=
      "You completed " ++ toString wk.1 ++ " workout" ++ (if wk.1 ≠ 1 then "s" else "") ++ "!" }

/-- The whole `parse` endpoint on an export: structured tables, the raw record
stream (shared by the fallback scan), and the workout nodes. -/
def parseMetrics (inp : StructuredInput) (records : List Record) (ws : List Workout) : Metrics :=
  buildMetrics (dualPathVals inp records) ws

/-! ## Per-record characterization of the scan step -/

/-- A steps record that accumulates: right type, parseable start, positive value. -/
def stepContribB (r : Record) : Bool :=
  decide (r.rtype = some stepsId) && r.startDate.isSome && decide (0 < floatOr0 r.value)

/-- An active-energy record that accumulates. -/
def energyContribB (r : Record) : Bool :=
  decide (r.rtype = some energyId) && r.startDate.isSome && decide (0 < floatOr0 r.value)

/-- A heart-rate record that accumulates: positive value, no timestamp needed. -/
def hrPosB (r : Record) : Bool :=
  decide (r.rtype = some hrId) && decide (0 < floatOr0 r.value)

/-- A resting-heart-rate record that accumulates. -/
def rhrPosB (r : Record) : Bool :=
  decide (r.rtype = some rhrId) && decide (0 < floatOr0 r.value)

/-- The raw-scan asleep label test (line 192): allow-list membership or a
case-sensitive `"Asleep"` substring. -/
def isAsleepRaw (raw : String) : Bool :=
  decide (raw ∈ asleepValues) || strContains raw "Asleep"

/-- A sleep record that accumulates in the scan: both timestamps parse, end
strictly after start, asleep label test on `val or ""`. -/
def sleepValidB (r : Record) : Bool :=
  decide (r.rtype = some sleepId) &&
  (match r.startDate, r.endDate with
   | some st, some en => decide (st < en)
   | _, _ => false) &&
  isAsleepRaw (r.value.getD "")

/-- A mindful-session record that accumulates in the scan: both timestamps
parse, end strictly after start. -/
def mindfulValidB (r : Record) : Bool :=
  decide (r.rtype = some mindfulId) &&
  (match r.startDate, r.endDate with
   | some st, some en => decide (st < en)
   | _, _ => false)

def stepContrib (r : Record) : ℚ := if stepContribB r then floatOr0 r.value else 0

def energyContrib (r : Record) : ℚ := if energyContribB r then floatOr0 r.value else 0

def hrContrib (r : Record) : ℚ := if hrPosB r then floatOr0 r.value else 0

def rhrContrib (r : Record) : ℚ := if rhrPosB r then floatOr0 r.value else 0

/-- Segment duration in hours (junk 0 when a timestamp is missing). -/
def recHours (r : Record) : ℚ :=
  match r.startDate, r.endDate with
  | some st, some en => ((en - st : Int) : ℚ) / 3600
  | _, _ => 0

/-- Segment duration in minutes. -/
def recMinutes (r : Record) : ℚ :=
  match r.startDate, r.endDate with
  | some st, some en => ((en - st : Int) : ℚ) / 60
  | _, _ => 0

def sleepContrib (r : Record) : ℚ := if sleepValidB r then recHours r else 0

def mindfulContrib (r : Record) : ℚ := if mindfulValidB r then recMinutes r else 0

/-- UTC day key of the record's start (junk `""` when missing). -/
def recDay (r : Record) : String :=
  match r.startDate with
  | some st => dayKeyOfSec st
  | none => ""

/-- UTC month key of the record's start. -/
def recMonth (r : Record) : String :=
  match r.startDate with
  | some st => monthKeyOfSec st
  | none => ""

/-- Flattened restatement of `scanStep`: the six accumulation cases are
mutually exclusive, keyed by the record's type. -/
def scanStepSpec (s : ScanState) (r : Record) : ScanState :=
  if stepContribB r then
    { s with steps_total := s.steps_total + floatOr0 r.value,
             steps_daily := bumpQ s.steps_daily (recDay r) (floatOr0 r.value),
             steps_monthly := bumpQ s.steps_monthly (recMonth r) (floatOr0 r.value) }
  else if energyContribB r then
    { s with energy_total := s.energy_total + floatOr0 r.value,
             energy_daily := bumpQ s.energy_daily (recDay r) (floatOr0 r.value) }
  else if hrPosB r then
    { s with hr_sum := s.hr_sum + floatOr0 r.value, hr_count := s.hr_count + 1 }
  else if rhrPosB r then
    { s with rhr_sum := s.rhr_sum + floatOr0 r.value, rhr_count := s.rhr_count + 1 }
  else if sleepValidB r then
    { s with sleep_total_hours := s.sleep_total_hours + recHours r,
             sleep_monthly_hours := bumpQ s.sleep_monthly_hours (recMonth r) (recHours r),
             sleep_night_dates := insertSetStr s.sleep_night_dates (recDay r) }
  else if mindfulValidB r then
    { s with mindful_total_min := s.mindful_total_min + recMinutes r,
             mindful_sessions := s.mindful_sessions + 1 }
  else s

theorem scanStep_eq (s : ScanState) (r : Record) : scanStep s r = scanStepSpec s r := by
  obtain ⟨ty, st, en, v⟩ := r
  cases ty with
  | none =>
    simp [scanStep, scanStepSpec, stepContribB, energyContribB, hrPosB, rhrPosB,
      sleepValidB, mindfulValidB]
  | some t =>
    by_cases h1 : t = stepsId
    · subst h1
      cases st with
      | none =>
        simp +decide [scanStep, scanStepSpec, stepContribB, energyContribB, hrPosB, rhrPosB,
          sleepValidB, mindfulValidB]
      | some stv =>
        by_cases hv : 0 < floatOr0 v <;>
          simp +decide [scanStep, scanStepSpec, stepContribB, energyContribB, hrPosB, rhrPosB,
            sleepValidB, mindfulValidB, recDay, recMonth, hv]
    · by_cases h2 : t = energyId
      · subst h2
        cases st with
        | none =>
          simp +decide [scanStep, scanStepSpec, stepContribB, energyContribB, hrPosB, rhrPosB,
            sleepValidB, mindfulValidB]
        | some stv =>
          by_cases hv : 0 < floatOr0 v <;>
            simp +decide [scanStep, scanStepSpec, stepContribB, energyContribB, hrPosB, rhrPosB,
              sleepValidB, mindfulValidB, recDay, recMonth, hv]
      · by_cases h3 : t = hrId
        · subst h3
          by_cases hv : 0 < floatOr0 v <;>
            simp +decide [scanStep, scanStepSpec, stepContribB, energyContribB, hrPosB, rhrPosB,
              sleepValidB, mindfulValidB, hv]
        · by_cases h4 : t = rhrId
          · subst h4
            by_cases hv : 0 < floatOr0 v <;>
              simp +decide [scanStep, scanStepSpec, stepContribB, energyContribB, hrPosB, rhrPosB,
                sleepValidB, mindfulValidB, hv]
          · by_cases h5 : t = sleepId
            · subst h5
              cases st with
              | none =>
                simp +decide [scanStep, scanStepSpec, stepContribB, energyContribB, hrPosB,
                  rhrPosB, sleepValidB, mindfulValidB]
              | some stv =>
                cases en with
                | none =>
                  simp +decide [scanStep, scanStepSpec, stepContribB, energyContribB, hrPosB,
                    rhrPosB, sleepValidB, mindfulValidB]
                | some env =>
                  by_cases hlt : stv < env
                  · have hq : (0 : ℚ) < ((env - stv : Int) : ℚ) / 3600 := by
                      have h0 : (0 : Int) < env - stv := by omega
                      have h0' : (0 : ℚ) < ((env - stv : Int) : ℚ) := by exact_mod_cast h0
                      positivity
                    by_cases hl : isAsleepRaw (v.getD "") = true <;>
                      simp +decide [scanStep, scanStepSpec, stepContribB, energyContribB, hrPosB,
                        rhrPosB, sleepValidB, mindfulValidB, recDay, recMonth, recHours,
                        isAsleepRaw, hlt, hq, hl] at *
                  · simp +decide [scanStep, scanStepSpec, stepContribB, energyContribB, hrPosB,
                      rhrPosB, sleepValidB, mindfulValidB, hlt]
            · by_cases h6 : t = mindfulId
              · subst h6
                cases st with
                | none =>
                  simp +decide [scanStep, scanStepSpec, stepContribB, energyContribB, hrPosB,
                    rhrPosB, sleepValidB, mindfulValidB]
                | some stv =>
                  cases en with
                  | none =>
                    simp +decide [scanStep, scanStepSpec, stepContribB, energyContribB, hrPosB,
                      rhrPosB, sleepValidB, mindfulValidB]
                  | some env =>
                    by_cases hlt : stv < env
                    · have hq : (0 : ℚ) < ((env - stv : Int) : ℚ) / 60 := by
                        have h0 : (0 : Int) < env - stv := by omega
                        have h0' : (0 : ℚ) < ((env - stv : Int) : ℚ) := by exact_mod_cast h0
                        positivity
                      simp +decide [scanStep, scanStepSpec, stepContribB, energyContribB, hrPosB,
                        rhrPosB, sleepValidB, mindfulValidB, recMinutes, hlt, hq]
                    · simp +decide [scanStep, scanStepSpec, stepContribB, energyContribB, hrPosB,
                        rhrPosB, sleepValidB, mindfulValidB, hlt]
              · simp [scanStep, scanStepSpec, stepContribB, energyContribB, hrPosB, rhrPosB,
                  sleepValidB, mindfulValidB, h1, h2, h3, h4, h5, h6]

theorem rtype_of_stepContribB {r : Record} (h : stepContribB r = true) :
    r.rtype = some stepsId := by
  unfold stepContribB at h
  simp only [Bool.and_eq_true, decide_eq_true_eq] at h
  exact h.1.1

theorem rtype_of_energyContribB {r : Record} (h : energyContribB r = true) :
    r.rtype = some energyId := by
  unfold energyContribB at h
  simp only [Bool.and_eq_true, decide_eq_true_eq] at h
  exact h.1.1

theorem rtype_of_hrPosB {r : Record} (h : hrPosB r = true) : r.rtype = some hrId := by
  unfold hrPosB at h
  simp only [Bool.and_eq_true, decide_eq_true_eq] at h
  exact h.1

theorem rtype_of_rhrPosB {r : Record} (h : rhrPosB r = true) : r.rtype = some rhrId := by
  unfold rhrPosB at h
  simp only [Bool.and_eq_true, decide_eq_true_eq] at h
  exact h.1

theorem rtype_of_sleepValidB {r : Record} (h : sleepValidB r = true) :
    r.rtype = some sleepId := by
  unfold sleepValidB at h
  simp only [Bool.and_eq_true, decide_eq_true_eq] at h
  exact h.1.1

theorem rtype_of_mindfulValidB {r : Record} (h : mindfulValidB r = true) :
    r.rtype = some mindfulId := by
  unfold mindfulValidB at h
  simp only [Bool.and_eq_true, decide_eq_true_eq] at h
  exact h.1

theorem scanStep_steps_total (s : ScanState) (r : Record) :
    (scanStep s r).steps_total = s.steps_total + stepContrib r := by
  rw [scanStep_eq]; unfold scanStepSpec stepContrib
  (repeat' split) <;> simp_all

theorem scanStep_hr_sum (s : ScanState) (r : Record) :
    (scanStep s r).hr_sum = s.hr_sum + hrContrib r := by
  rw [scanStep_eq]; unfold scanStepSpec hrContrib
  by_cases h : hrPosB r = true
  · have h1 : stepContribB r = false := by
      simp +decide [stepContribB, rtype_of_hrPosB h]
    have h2 : energyContribB r = false := by
      simp +decide [energyContribB, rtype_of_hrPosB h]
    simp [h, h1, h2]
  · simp only [Bool.not_eq_true] at h
    simp only [h, Bool.false_eq_true, if_false, add_zero]
    (repeat' split) <;> (first | rfl | simp)

theorem scanStep_hr_count (s : ScanState) (r : Record) :
    (scanStep s r).hr_count = s.hr_count + (if hrPosB r then 1 else 0) := by
  rw [scanStep_eq]; unfold scanStepSpec
  by_cases h : hrPosB r = true
  · have h1 : stepContribB r = false := by
      simp +decide [stepContribB, rtype_of_hrPosB h]
    have h2 : energyContribB r = false := by
      simp +decide [energyContribB, rtype_of_hrPosB h]
    simp [h, h1, h2]
  · simp only [Bool.not_eq_true] at h
    simp only [h, Bool.false_eq_true, if_false, Nat.add_zero]
    (repeat' split) <;> (first | rfl | simp)

theorem scanStep_rhr_sum (s : ScanState) (r : Record) :
    (scanStep s r).rhr_sum = s.rhr_sum + rhrContrib r := by
  rw [scanStep_eq]; unfold scanStepSpec rhrContrib
  by_cases h : rhrPosB r = true
  · have h1 : stepContribB r = false := by
      simp +decide [stepContribB, rtype_of_rhrPosB h]
    have h2 : energyContribB r = false := by
      simp +decide [energyContribB, rtype_of_rhrPosB h]
    have h3 : hrPosB r = false := by
      simp +decide [hrPosB, rtype_of_rhrPosB h]
    simp [h, h1, h2, h3]
  · simp only [Bool.not_eq_true] at h
    simp only [h, Bool.false_eq_true, if_false, add_zero]
    (repeat' split) <;> (first | rfl | simp)

theorem scanStep_rhr_count (s : ScanState) (r : Record) :
    (scanStep s r).rhr_count = s.rhr_count + (if rhrPosB r then 1 else 0) := by
  rw [scanStep_eq]; unfold scanStepSpec
  by_cases h : rhrPosB r = true
  · have h1 : stepContribB r = false := by
      simp +decide [stepContribB, rtype_of_rhrPosB h]
    have h2 : energyContribB r = false := by
      simp +decide [energyContribB, rtype_of_rhrPosB h]
    have h3 : hrPosB r = false := by
      simp +decide [hrPosB, rtype_of_rhrPosB h]
    simp [h, h1, h2, h3]
  · simp only [Bool.not_eq_true] at h
    simp only [h, Bool.false_eq_true, if_false, Nat.add_zero]
    (repeat' split) <;> (first | rfl | simp)

theorem scanStep_sleep_total (s : ScanState) (r : Record) :
    (scanStep s r).sleep_total_hours = s.sleep_total_hours + sleepContrib r := by
  rw [scanStep_eq]; unfold scanStepSpec sleepContrib
  by_cases h : sleepValidB r = true
  · have h1 : stepContribB r = false := by
      simp +decide [stepContribB, rtype_of_sleepValidB h]
    have h2 : energyContribB r = false := by
      simp +decide [energyContribB, rtype_of_sleepValidB h]
    have h3 : hrPosB r = false := by
      simp +decide [hrPosB, rtype_of_sleepValidB h]
    have h4 : rhrPosB r = false := by
      simp +decide [rhrPosB, rtype_of_sleepValidB h]
    simp [h, h1, h2, h3, h4]
  · simp only [Bool.not_eq_true] at h
    simp only [h, Bool.false_eq_true, if_false, add_zero]
    (repeat' split) <;> (first | rfl | simp)

theorem scanStep_sleep_dates (s : ScanState) (r : Record) :
    (scanStep s r).sleep_night_dates =
      if sleepValidB r then insertSetStr s.sleep_night_dates (recDay r)
      else s.sleep_night_dates := by
  rw [scanStep_eq]; unfold scanStepSpec
  by_cases h : sleepValidB r = true
  · have h1 : stepContribB r = false := by
      simp +decide [stepContribB, rtype_of_sleepValidB h]
    have h2 : energyContribB r = false := by
      simp +decide [energyContribB, rtype_of_sleepValidB h]
    have h3 : hrPosB r = false := by
      simp +decide [hrPosB, rtype_of_sleepValidB h]
    have h4 : rhrPosB r = false := by
      simp +decide [rhrPosB, rtype_of_sleepValidB h]
    simp [h, h1, h2, h3, h4]
  · simp only [Bool.not_eq_true] at h
    simp only [h, Bool.false_eq_true, if_false]
    (repeat' split) <;> (first | rfl | simp)

theorem scanStep_mindful_total (s : ScanState) (r : Record) :
    (scanStep s r).mindful_total_min = s.mindful_total_min + mindfulContrib r := by
  rw [scanStep_eq]; unfold scanStepSpec mindfulContrib
  by_cases h : mindfulValidB r = true
  · have h1 : stepContribB r = false := by
      simp +decide [stepContribB, rtype_of_mindfulValidB h]
    have h2 : energyContribB r = false := by
      simp +decide [energyContribB, rtype_of_mindfulValidB h]
    have h3 : hrPosB r = false := by
      simp +decide [hrPosB, rtype_of_mindfulValidB h]
    have h4 : rhrPosB r = false := by
      simp +decide [rhrPosB, rtype_of_mindfulValidB h]
    have h5 : sleepValidB r = false := by
      simp +decide [sleepValidB, rtype_of_mindfulValidB h]
    simp [h, h1, h2, h3, h4, h5]
  · simp only [Bool.not_eq_true] at h
    simp only [h, Bool.false_eq_true, if_false, add_zero]
    (repeat' split) <;> (first | rfl | simp)

theorem scanStep_mindful_sessions (s : ScanState) (r : Record) :
    (scanStep s r).mindful_sessions = s.mindful_sessions + (if mindfulValidB r then 1 else 0) := by
  rw [scanStep_eq]; unfold scanStepSpec
  by_cases h : mindfulValidB r = true
  · have h1 : stepContribB r = false := by
      simp +decide [stepContribB, rtype_of_mindfulValidB h]
    have h2 : energyContribB r = false := by
      simp +decide [energyContribB, rtype_of_mindfulValidB h]
    have h3 : hrPosB r = false := by
      simp +decide [hrPosB, rtype_of_mindfulValidB h]
    have h4 : rhrPosB r = false := by
      simp +decide [rhrPosB, rtype_of_mindfulValidB h]
    have h5 : sleepValidB r = false := by
      simp +decide [sleepValidB, rtype_of_mindfulValidB h]
    simp [h, h1, h2, h3, h4, h5]
  · simp only [Bool.not_eq_true] at h
    simp only [h, Bool.false_eq_true, if_false, Nat.add_zero]
    (repeat' split) <;> (first | rfl | simp)

/-! ## Whole-pass accumulation lemmas -/

theorem scanFoldFrom_steps_total (rs : List Record) (s : ScanState) :
    (rs.foldl scanStep s).steps_total = s.steps_total + (rs.map stepContrib).sum := by
  induction rs generalizing s with
  | nil => simp
  | cons r rs ih => simp [List.foldl_cons, ih, scanStep_steps_total, add_assoc]

theorem scanFold_steps_total (rs : List Record) :
    (scanFold rs).steps_total = (rs.map stepContrib).sum := by
  rw [scanFold, scanFoldFrom_steps_total]; exact zero_add _

theorem scanFoldFrom_hr_sum (rs : List Record) (s : ScanState) :
    (rs.foldl scanStep s).hr_sum = s.hr_sum + (rs.map hrContrib).sum := by
  induction rs generalizing s with
  | nil => simp
  | cons r rs ih => simp [List.foldl_cons, ih, scanStep_hr_sum, add_assoc]

theorem scanFold_hr_sum (rs : List Record) :
    (scanFold rs).hr_sum = (rs.map hrContrib).sum := by
  rw [scanFold, scanFoldFrom_hr_sum]; exact zero_add _

theorem scanFoldFrom_hr_count (rs : List Record) (s : ScanState) :
    (rs.foldl scanStep s).hr_count = s.hr_count + rs.countP hrPosB := by
  induction rs generalizing s with
  | nil => simp
  | cons r rs ih =>
    simp only [List.foldl_cons, ih, scanStep_hr_count, List.countP_cons]
    by_cases h : hrPosB r = true <;> simp [h] <;> omega

theorem scanFold_hr_count (rs : List Record) :
    (scanFold rs).hr_count = rs.countP hrPosB := by
  rw [scanFold, scanFoldFrom_hr_count]; exact Nat.zero_add _

theorem scanFoldFrom_rhr_sum (rs : List Record) (s : ScanState) :
    (rs.foldl scanStep s).rhr_sum = s.rhr_sum + (rs.map rhrContrib).sum := by
  induction rs generalizing s with
  | nil => simp
  | cons r rs ih => simp [List.foldl_cons, ih, scanStep_rhr_sum, add_assoc]

theorem scanFold_rhr_sum (rs : List Record) :
    (scanFold rs).rhr_sum = (rs.map rhrContrib).sum := by
  rw [scanFold, scanFoldFrom_rhr_sum]; exact zero_add _

theorem scanFoldFrom_rhr_count (rs : List Record) (s : ScanState) :
    (rs.foldl scanStep s).rhr_count = s.rhr_count + rs.countP rhrPosB := by
  induction rs generalizing s with
  | nil => simp
  | cons r rs ih =>
    simp only [List.foldl_cons, ih, scanStep_rhr_count, List.countP_cons]
    by_cases h : rhrPosB r = true <;> simp [h] <;> omega

theorem scanFold_rhr_count (rs : List Record) :
    (scanFold rs).rhr_count = rs.countP rhrPosB := by
  rw [scanFold, scanFoldFrom_rhr_count]; exact Nat.zero_add _

theorem scanFoldFrom_sleep_total (rs : List Record) (s : ScanState) :
    (rs.foldl scanStep s).sleep_total_hours = s.sleep_total_hours + (rs.map sleepContrib).sum := by
  induction rs generalizing s with
  | nil => simp
  | cons r rs ih => simp [List.foldl_cons, ih, scanStep_sleep_total, add_assoc]

theorem scanFold_sleep_total (rs : List Record) :
    (scanFold rs).sleep_total_hours = (rs.map sleepContrib).sum := by
  rw [scanFold, scanFoldFrom_sleep_total]; exact zero_add _

theorem scanFoldFrom_mindful_total (rs : List Record) (s : ScanState) :
    (rs.foldl scanStep s).mindful_total_min = s.mindful_total_min + (rs.map mindfulContrib).sum := by
  induction rs generalizing s with
  | nil => simp
  | cons r rs ih => simp [List.foldl_cons, ih, scanStep_mindful_total, add_assoc]

theorem scanFold_mindful_total (rs : List Record) :
    (scanFold rs).mindful_total_min = (rs.map mindfulContrib).sum := by
  rw [scanFold, scanFoldFrom_mindful_total]; exact zero_add _

theorem scanFoldFrom_mindful_sessions (rs : List Record) (s : ScanState) :
    (rs.foldl scanStep s).mindful_sessions = s.mindful_sessions + rs.countP mindfulValidB := by
  induction rs generalizing s with
  | nil => simp
  | cons r rs ih =>
    simp only [List.foldl_cons, ih, scanStep_mindful_sessions, List.countP_cons]
    by_cases h : mindfulValidB r = true <;> simp [h] <;> omega

theorem scanFold_mindful_sessions (rs : List Record) :
    (scanFold rs).mindful_sessions = rs.countP mindfulValidB := by
  rw [scanFold, scanFoldFrom_mindful_sessions]; exact Nat.zero_add _

theorem insertSetStr_mem (l : List String) (d x : String) :
    x ∈ insertSetStr l d ↔ x ∈ l ∨ x = d := by
  by_cases h : d ∈ l
  · simp only [insertSetStr, if_pos h]
    exact ⟨Or.inl, fun hh => hh.elim id (fun he => he ▸ h)⟩
  · simp [insertSetStr, h]

theorem insertSetStr_nodup (l : List String) (d : String) (h : l.Nodup) :
    (insertSetStr l d).Nodup := by
  by_cases hd : d ∈ l
  · simpa [insertSetStr, hd] using h
  · simp [insertSetStr, hd, List.nodup_append, h]

theorem scanFoldFrom_dates_mem (rs : List Record) (s : ScanState) (x : String) :
    x ∈ (rs.foldl scanStep s).sleep_night_dates ↔
      x ∈ s.sleep_night_dates ∨ ∃ r ∈ rs, sleepValidB r = true ∧ recDay r = x := by
  induction rs generalizing s with
  | nil => simp
  | cons r rs ih =>
    simp only [List.foldl_cons, ih, scanStep_sleep_dates]
    by_cases h : sleepValidB r = true
    · simp only [if_pos h, insertSetStr_mem, List.mem_cons]
      constructor
      · rintro ((hx | rfl) | ⟨r', hr', hv, hd⟩)
        · exact Or.inl hx
        · exact Or.inr ⟨r, Or.inl rfl, h, rfl⟩
        · exact Or.inr ⟨r', Or.inr hr', hv, hd⟩
      · rintro (hx | ⟨r', (rfl | hr'), hv, hd⟩)
        · exact Or.inl (Or.inl hx)
        · exact Or.inl (Or.inr hd.symm)
        · exact Or.inr ⟨r', hr', hv, hd⟩
    · simp only [if_neg h, List.mem_cons]
      constructor
      · rintro (hx | ⟨r', hr', hv, hd⟩)
        · exact Or.inl hx
        · exact Or.inr ⟨r', Or.inr hr', hv, hd⟩
      · rintro (hx | ⟨r', (rfl | hr'), hv, hd⟩)
        · exact Or.inl hx
        · exact absurd hv h
        · exact Or.inr ⟨r', hr', hv, hd⟩

theorem scanFold_dates_mem (rs : List Record) (x : String) :
    x ∈ (scanFold rs).sleep_night_dates ↔
      ∃ r ∈ rs, sleepValidB r = true ∧ recDay r = x := by
  rw [scanFold, scanFoldFrom_dates_mem]; simp

theorem scanFoldFrom_dates_nodup (rs : List Record) (s : ScanState)
    (h : s.sleep_night_dates.Nodup) : ((rs.foldl scanStep s).sleep_night_dates).Nodup := by
  induction rs generalizing s with
  | nil => exact h
  | cons r rs ih =>
    refine ih (scanStep s r) ?_
    rw [scanStep_sleep_dates]
    split
    · exact insertSetStr_nodup _ _ h
    · exact h

theorem scanFold_dates_nodup (rs : List Record) : ((scanFold rs).sleep_night_dates).Nodup := by
  exact scanFoldFrom_dates_nodup rs {} (by simp)

/-- Record types the scan classifies; everything else leaves the state
untouched. -/
def recMatches (r : Record) : Bool :=
  decide (r.rtype = some stepsId) || decide (r.rtype = some energyId) ||
  decide (r.rtype = some hrId) || decide (r.rtype = some rhrId) ||
  decide (r.rtype = some sleepId) || decide (r.rtype = some mindfulId)

theorem scanStep_unmatched (s : ScanState) (r : Record) (h : recMatches r = false) :
    scanStep s r = s := by
  rw [scanStep_eq]
  unfold recMatches at h
  simp only [Bool.or_eq_false_iff, decide_eq_false_iff_not] at h
  obtain ⟨⟨⟨⟨⟨h1, h2⟩, h3⟩, h4⟩, h5⟩, h6⟩ := h
  unfold scanStepSpec
  simp [stepContribB, energyContribB, hrPosB, rhrPosB, sleepValidB, mindfulValidB,
    h1, h2, h3, h4, h5, h6]

theorem scanFold_unmatched (rs : List Record) (h : ∀ r ∈ rs, recMatches r = false) :
    scanFold rs = ({} : ScanState) := by
  rw [scanFold]
  induction rs with
  | nil => rfl
  | cons r rs ih =>
    rw [List.foldl_cons, scanStep_unmatched _ r (h r (List.mem_cons_self r rs))]
    exact ih (fun r' hr' => h r' (List.mem_cons_of_mem r hr'))

/-! ## First-maximum characterization of `pyMaxKey` -/

theorem pyMaxKeyAux_first_max (rest : List (String × ℚ)) :
    ∀ best : String × ℚ, ∃ l1 l2,
      best :: rest = l1 ++ (rest.foldl pyMaxStep best) :: l2 ∧
      (∀ p ∈ best :: rest, p.2 ≤ (rest.foldl pyMaxStep best).2) ∧
      (∀ p ∈ l1, p.2 < (rest.foldl pyMaxStep best).2) := by
  induction rest with
  | nil =>
    intro best
    exact ⟨[], [], rfl, by simp, by simp⟩
  | cons kv rest ih =>
    intro best
    rw [List.foldl_cons]
    by_cases hgt : kv.2 > best.2
    · have hstep : pyMaxStep best kv = kv := by simp [pyMaxStep, hgt]
      obtain ⟨l1, l2, heq, hle, hlt⟩ := ih kv
      rw [hstep]
      refine ⟨best :: l1, l2, ?_, ?_, ?_⟩
      · simpa using congrArg (best :: ·) heq
      · intro p hp
        rcases List.mem_cons.1 hp with rfl | hp'
        · exact le_trans (le_of_lt hgt) (hle kv (List.mem_cons_self kv rest))
        · exact hle p hp'
      · intro p hp
        rcases List.mem_cons.1 hp with rfl | hp'
        · exact lt_of_lt_of_le hgt (hle kv (List.mem_cons_self kv rest))
        · exact hlt p hp'
    · have hstep : pyMaxStep best kv = best := by simp [pyMaxStep, hgt]
      obtain ⟨l1, l2, heq, hle, hlt⟩ := ih best
      rw [hstep]
      have hle' : kv.2 ≤ (rest.foldl pyMaxStep best).2 :=
        le_trans (le_of_not_lt hgt) (hle best (List.mem_cons_self best rest))
      cases l1 with
      | nil =>
        simp only [List.nil_append] at heq
        have hb : rest.foldl pyMaxStep best = best := (List.cons.inj heq).1.symm
        refine ⟨[], kv :: rest, by simp [hb], ?_, ?_⟩
        · intro p hp
          rcases List.mem_cons.1 hp with hpb | hp'
          · rw [hpb]; exact hle best (List.mem_cons_self best rest)
          · rcases List.mem_cons.1 hp' with hpk | hp''
            · rw [hpk]; exact hle'
            · exact hle p (List.mem_cons_of_mem best hp'')
        · intro p hp
          exact absurd hp (List.not_mem_nil p)
      | cons q l1' =>
        have hq : best = q := (List.cons.inj heq).1
        subst hq
        have hrest : rest = l1' ++ (rest.foldl pyMaxStep best) :: l2 := (List.cons.inj heq).2
        have hbl : best ∈ best :: l1' := List.mem_cons_self best l1'
        refine ⟨best :: kv :: l1', l2, ?_, ?_, ?_⟩
        · simpa using congrArg (fun l => best :: kv :: l) hrest
        · intro p hp
          rcases List.mem_cons.1 hp with hpb | hp'
          · rw [hpb]; exact hle best (List.mem_cons_self best rest)
          · rcases List.mem_cons.1 hp' with hpk | hp''
            · rw [hpk]; exact hle'
            · exact hle p (List.mem_cons_of_mem best hp'')
        · intro p hp
          rcases List.mem_cons.1 hp with hpb | hp'
          · rw [hpb]; exact hlt best hbl
          · rcases List.mem_cons.1 hp' with hpk | hp''
            · rw [hpk]; exact lt_of_le_of_lt (le_of_not_lt hgt) (hlt best hbl)
            · exact hlt p (List.mem_cons_of_mem best hp'')

/-- `bumpNat` grows the total multiplicity by exactly one. -/
theorem bumpNat_sum (l : List (String × Nat)) (k : String) :
    ((bumpNat l k).map Prod.snd).sum = (l.map Prod.snd).sum + 1 := by
  induction l with
  | nil => simp [bumpNat]
  | cons kv rest ih =>
    obtain ⟨k0, v0⟩ := kv
    by_cases h : k0 = k <;> simp [bumpNat, h, ih] <;> omega

/-- The workout type counter accounts for every workout record. -/
theorem workoutsFold_types_sum (ws : List Workout) :
    (((workoutsFold ws).2.1).map Prod.snd).sum = ws.length := by
  suffices h : ∀ acc : List (String × Nat),
      ((ws.foldl (fun acc w => bumpNat acc (workoutKind w)) acc).map Prod.snd).sum =
        (acc.map Prod.snd).sum + ws.length by
    simpa [workoutsFold] using h []
  induction ws with
  | nil => simp
  | cons w ws ih =>
    intro acc
    rw [List.foldl_cons, ih, bumpNat_sum]
    simp [Nat.add_assoc, Nat.add_comm 1 ws.length]

/-- Summing `if p a then f a else 0` is summing `f` over the filtered list. -/
theorem sum_ite_filter (p : α → Bool) (f : α → ℚ) (l : List α) :
    (l.map (fun a => if p a then f a else 0)).sum = ((l.filter p).map f).sum := by
  induction l with
  | nil => rfl
  | cons a l ih => by_cases h : p a <;> simp [h, ih, List.filter_cons]

/-! ## Claims -/

/-- C7: for every metric with a month-bucket mapping, the best month is the
key whose aggregated sum is maximal; an exact tie resolves deterministically
to the first key in the mapping's iteration order (Python `max` and pandas
`idxmax` both keep the first maximum); the empty mapping gives `""` instead
of an error.  The scan path applies `pyMaxKey` to its insertion-ordered
month buckets, pandas `idxmax` applies the same rule to the sorted groups. -/
theorem bestMonth_first_max (l : List (String × ℚ)) (rs : List Record) :
    (l = [] → pyMaxKey l = "") ∧
    (l ≠ [] → ∃ l1 v l2, l = l1 ++ (pyMaxKey l, v) :: l2 ∧
       (∀ p ∈ l, p.2 ≤ v) ∧ (∀ p ∈ l1, p.2 < v)) ∧
    (scanRecordsOnce rs).steps_bestMonth = pyMaxKey (scanFold rs).steps_monthly ∧
    (scanRecordsOnce rs).sleep_bestMonth = pyMaxKey (scanFold rs).sleep_monthly_hours := by
  refine ⟨fun h => by simp [h, pyMaxKey], ?_, rfl, rfl⟩
  intro hne
  cases l with
  | nil => exact absurd rfl hne
  | cons kv rest =>
    obtain ⟨l1, l2, heq, hle, hlt⟩ := pyMaxKeyAux_first_max rest kv
    refine ⟨l1, (rest.foldl pyMaxStep kv).2, l2, ?_, hle, hlt⟩
    simpa [pyMaxKey] using heq

theorem bestMonth_first_max_witness :
    pyMaxKey [("2023-01", (5 : ℚ)), ("2023-02", 5)] = "2023-01" ∧
    (∃ l1 v l2, [("2023-01", (5 : ℚ)), ("2023-02", 5)] =
        l1 ++ (pyMaxKey [("2023-01", (5 : ℚ)), ("2023-02", 5)], v) :: l2 ∧
      (∀ p ∈ [("2023-01", (5 : ℚ)), ("2023-02", 5)], p.2 ≤ v) ∧ (∀ p ∈ l1, p.2 < v)) := by
  constructor
  · norm_num [pyMaxKey, pyMaxStep]
  · exact (bestMonth_first_max [("2023-01", (5 : ℚ)), ("2023-02", 5)] []).2.1 (by simp)

/-- C8: workout durations convert to minutes by a factor of 60 exactly when
the (lowercased) unit is `hr`/`hour`/`hours`; any other or empty unit keeps
the value; a non-numeric duration contributes no minutes and raises nothing,
while every workout record — including those — is tallied by activity type. -/
theorem workout_tabulator_spec (ws : List Workout) :
    (∀ a u s d, pyFloat s = some d → lowerStr (u.getD "") ∈ unitHours →
        workoutMinutes ⟨a, some s, u⟩ = some (d * 60)) ∧
    (∀ a u s d, pyFloat s = some d → lowerStr (u.getD "") ∉ unitHours →
        workoutMinutes ⟨a, some s, u⟩ = some d) ∧
    (∀ a u s, pyFloat s = none → workoutMinutes ⟨a, some s, u⟩ = none) ∧
    (workoutsFold ws).2.2 = (ws.map (fun w => (workoutMinutes w).getD 0)).sum ∧
    (workoutsFold ws).1 = ws.length ∧
    (((workoutsFold ws).2.1).map Prod.snd).sum = ws.length := by
  refine ⟨?_, ?_, ?_, rfl, rfl, workoutsFold_types_sum ws⟩
  · intro a u s d hd hu
    simp [workoutMinutes, hd, hu]
  · intro a u s d hd hu
    simp [workoutMinutes, hd, hu]
  · intro a u s hd
    simp [workoutMinutes, hd]

theorem workout_tabulator_spec_witness :
    workoutMinutes ⟨none, some "2", some "hr"⟩ = some 120 ∧
    workoutMinutes ⟨none, some "45", some "min"⟩ = some 45 ∧
    workoutMinutes ⟨none, some "45", some ""⟩ = some 45 ∧
    workoutMinutes ⟨none, some "abc", some "min"⟩ = none ∧
    (((workoutsFold [⟨some "HKWorkoutActivityTypeYoga", some "abc", some "min"⟩]).2.1).map
        Prod.snd).sum = 1 := by
  have hf2 : pyFloat "2" = some 2 := by
    simp +decide [pyFloat, mantPart, afterMant, digitsVal, List.dropWhile, List.takeWhile]
  have hf45 : pyFloat "45" = some 45 := by
    simp +decide [pyFloat, mantPart, afterMant, digitsVal, List.dropWhile, List.takeWhile]
  have hfabc : pyFloat "abc" = none := by
    simp +decide [pyFloat, mantPart, afterMant, digitsVal, List.dropWhile, List.takeWhile]
  refine ⟨?_, ?_, ?_, ?_, ?_⟩
  · have h := (workout_tabulator_spec []).1 none (some "hr") "2" 2 hf2 (by decide)
    rw [h]; norm_num
  · exact (workout_tabulator_spec []).2.1 none (some "min") "45" 45 hf45 (by decide)
  · exact (workout_tabulator_spec []).2.1 none (some "") "45" 45 hf45 (by decide)
  · exact (workout_tabulator_spec []).2.2.1 none (some "min") "abc" hfabc
  · have h := (workout_tabulator_spec
      [⟨some "HKWorkoutActivityTypeYoga", some "abc", some "min"⟩]).2.2.2.2.2
    simpa using h

/-- C10: a sleep-analysis record whose value is exactly `"1"` is counted as
asleep in both paths — `"1"` sits in the fixed allow-list next to the
`HKCategoryValueSleepAnalysisAsleep*` labels — even though `"1"` does not
contain the substring `"Asleep"`. -/
theorem sleep_value_one_counted (st en : Int) (h : st < en) :
    ("1" ∈ asleepValues) ∧
    (strContains "1" "Asleep" = false) ∧
    (scanFold [⟨some sleepId, some st, some en, some "1"⟩]).sleep_total_hours
        = ((en - st : Int) : ℚ) / 3600 ∧
    structAsleepRow ⟨some st, some en, some "1"⟩ = true := by
  refine ⟨by decide, by decide, ?_, by simp +decide [structAsleepRow]⟩
  rw [scanFold_sleep_total]
  simp +decide [sleepContrib, sleepValidB, isAsleepRaw, recHours, h]

theorem sleep_value_one_counted_witness :
    (0 : Int) < 3600 ∧
    (scanFold [⟨some sleepId, some 0, some 3600, some "1"⟩]).sleep_total_hours
        = ((3600 - 0 : Int) : ℚ) / 3600 :=
  ⟨by decide, (sleep_value_one_counted 0 3600 (by decide)).2.2.1⟩

/-- The structured tables for an export with no records of the six scanned
categories: `_df_for` hands back nothing for each of them. -/
def noneInput : StructuredInput := ⟨none, none, none, none, none, none⟩

/-- C9: an export with no matching records returns the summary without
raising: every total is 0, every average is 0, both best months are the
empty string and the top achievement is the empty string. -/
theorem empty_export_zeroes (rs : List Record) (h : ∀ r ∈ rs, recMatches r = false) :
    (parseMetrics noneInput rs []).steps_total = 0 ∧
    (parseMetrics noneInput rs []).steps_average = 0 ∧
    (parseMetrics noneInput rs []).steps_bestMonth = "" ∧
    (parseMetrics noneInput rs []).steps_monthlyData = [] ∧
    (parseMetrics noneInput rs []).workouts_total = 0 ∧
    (parseMetrics noneInput rs []).workouts_totalMinutes = 0 ∧
    (parseMetrics noneInput rs []).sleep_totalHours = 0 ∧
    (parseMetrics noneInput rs []).sleep_averageHours = 0 ∧
    (parseMetrics noneInput rs []).sleep_bestMonth = "" ∧
    (parseMetrics noneInput rs []).heartRate_average = 0 ∧
    (parseMetrics noneInput rs []).heartRate_resting = 0 ∧
    (parseMetrics noneInput rs []).activeEnergy_total = 0 ∧
    (parseMetrics noneInput rs []).activeEnergy_average = 0 ∧
    (parseMetrics noneInput rs []).mindfulMinutes_total = 0 ∧
    (parseMetrics noneInput rs []).mindfulMinutes_sessions = 0 ∧
    (parseMetrics noneInput rs []).insights_topAchievement = "" := by
  have hscan : scanFold rs = ({} : ScanState) := scanFold_unmatched rs h
  have hout : scanRecordsOnce rs = scanOut ({} : ScanState) := by
    rw [scanRecordsOnce, hscan]
  have hzero : scanOut ({} : ScanState) =
      { steps_total := 0, steps_average := 0, steps_bestMonth := "", steps_monthlyData := [],
        energy_total := 0, energy_average := 0, heart_avg := 0, heart_rest := 0,
        sleep_totalHours := 0, sleep_averageHours := 0, sleep_bestMonth := "",
        mindful_total := 0, mindful_sessions := 0 } := by
    norm_num [scanOut, pyMaxKey, sortPairs, pyRoundInt, pyRound2]
  simp only [parseMetrics, buildMetrics, dualPathVals, structuredPhase, structuredSteps,
    structuredEnergy, structuredHr, structuredSleep, structuredMindful, noneInput,
    anyNeed, needSteps, needEnergy, needHr, needSleep, needMindful, mergeScan, svToMerged,
    hout, hzero, workoutsFold]
  norm_num [pyRound2, pyRoundInt]

/-- A record of a category the aggregation engine does not classify. -/
def unmatchedRec : Record :=
  { rtype := some "HKQuantityTypeIdentifierBodyMass", startDate := some 0,
    endDate := none, value := some "70" }

theorem empty_export_zeroes_witness :
    (∀ r ∈ [unmatchedRec], recMatches r = false) ∧
    (parseMetrics noneInput [unmatchedRec] []).steps_total = 0 ∧
    (parseMetrics noneInput [unmatchedRec] []).insights_topAchievement = "" := by
  have hm : ∀ r ∈ [unmatchedRec], recMatches r = false := by decide
  have h := empty_export_zeroes [unmatchedRec] hm
  exact ⟨hm, h.1, h.2.2.2.2.2.2.2.2.2.2.2.2.2.2.2⟩

/-- C1: the raw single-pass scan runs at most once, and exactly when at least
one category has zero yield from the structured path; each zero-yield
category's structured result is overwritten by the scan result for that
category; every category with nonzero structured yield keeps all its
structured values untouched; the heart-rate need is evaluated jointly — the
fallback applies to heart rate exactly when both the heart-rate and
resting-heart-rate structured averages are 0. -/
theorem dual_path_fallback (inp : StructuredInput) (records : List Record) :
    scanPasses inp ≤ 1 ∧
    (scanPasses inp = 1 ↔ anyNeed (structuredPhase inp) = true) ∧
    (needHr (structuredPhase inp) = true ↔
      ((structuredPhase inp).hr_avg = 0 ∧ (structuredPhase inp).rhr_avg = 0)) ∧
    (needSteps (structuredPhase inp) = false →
      (dualPathVals inp records).steps_total = (structuredPhase inp).steps_total ∧
      (dualPathVals inp records).steps_avg = (structuredPhase inp).steps_avg ∧
      (dualPathVals inp records).steps_best = (structuredPhase inp).steps_best ∧
      (dualPathVals inp records).steps_monthly = (structuredPhase inp).steps_monthly) ∧
    (needSteps (structuredPhase inp) = true →
      (dualPathVals inp records).steps_total = (scanRecordsOnce records).steps_total ∧
      (dualPathVals inp records).steps_avg = (scanRecordsOnce records).steps_average ∧
      (dualPathVals inp records).steps_best = (scanRecordsOnce records).steps_bestMonth ∧
      (dualPathVals inp records).steps_monthly = (scanRecordsOnce records).steps_monthlyData) ∧
    (needEnergy (structuredPhase inp) = false →
      (dualPathVals inp records).energy_total = (structuredPhase inp).energy_total ∧
      (dualPathVals inp records).energy_avg = (structuredPhase inp).energy_avg) ∧
    (needEnergy (structuredPhase inp) = true →
      (dualPathVals inp records).energy_total = (scanRecordsOnce records).energy_total ∧
      (dualPathVals inp records).energy_avg = (scanRecordsOnce records).energy_average) ∧
    (needHr (structuredPhase inp) = false →
      (dualPathVals inp records).hr_avg = (structuredPhase inp).hr_avg ∧
      (dualPathVals inp records).rhr_avg = (structuredPhase inp).rhr_avg) ∧
    (needHr (structuredPhase inp) = true →
      (dualPathVals inp records).hr_avg = (scanRecordsOnce records).heart_avg ∧
      (dualPathVals inp records).rhr_avg = (scanRecordsOnce records).heart_rest) ∧
    (needSleep (structuredPhase inp) = false →
      (dualPathVals inp records).sleep_total = (structuredPhase inp).sleep_total ∧
      (dualPathVals inp records).sleep_avg = (structuredPhase inp).sleep_avg ∧
      (dualPathVals inp records).sleep_best = (structuredPhase inp).sleep_best) ∧
    (needSleep (structuredPhase inp) = true →
      (dualPathVals inp records).sleep_total = (scanRecordsOnce records).sleep_totalHours ∧
      (dualPathVals inp records).sleep_avg = (scanRecordsOnce records).sleep_averageHours ∧
      (dualPathVals inp records).sleep_best = (scanRecordsOnce records).sleep_bestMonth) ∧
    (needMindful (structuredPhase inp) = false →
      (dualPathVals inp records).mind_total = (structuredPhase inp).mind_total ∧
      (dualPathVals inp records).mind_sessions = (structuredPhase inp).mind_sessions) ∧
    (needMindful (structuredPhase inp) = true →
      (dualPathVals inp records).mind_total = (scanRecordsOnce records).mindful_total ∧
      (dualPathVals inp records).mind_sessions = (scanRecordsOnce records).mindful_sessions) := by
  refine ⟨?_, ?_, ?_, ?_, ?_, ?_, ?_, ?_, ?_, ?_, ?_, ?_, ?_⟩
  · unfold scanPasses; split <;> simp
  · unfold scanPasses; split <;> simp_all
  · unfold needHr; simp
  all_goals (
    intro h
    unfold dualPathVals
    by_cases hA : anyNeed (structuredPhase inp) = true
    · simp only [hA, if_true, mergeScan, h]
      simp
    · have hall := hA
      simp only [anyNeed, Bool.or_eq_true] at hall
      push_neg at hall
      simp only [Bool.not_eq_true] at hA
      simp only [hA, Bool.false_eq_true, if_false, svToMerged]
      first
        | simp
        | (exfalso
           revert h
           simp only [anyNeed, Bool.or_eq_true, Bool.not_eq_true] at hA ⊢
           intro h
           rcases Bool.or_eq_false_iff.1 hA with ⟨h1, h2⟩
           simp_all))

/-- A structured input whose steps table yields (so steps keeps the
structured result) while every other category is absent (so they need the
scan fallback). -/
def cInpC1 : StructuredInput :=
  { steps := some [⟨some 0, none, some "10"⟩], energy := none, hr := none,
    rhr := none, sleep := none, mindful := none }

theorem dual_path_fallback_witness :
    scanPasses cInpC1 ≤ 1 ∧
    needSteps (structuredPhase cInpC1) = false ∧
    needSleep (structuredPhase cInpC1) = true ∧
    (dualPathVals cInpC1 []).steps_total = (structuredPhase cInpC1).steps_total ∧
    (dualPathVals cInpC1 []).sleep_total = (scanRecordsOnce []).sleep_totalHours := by
  have h10 : pyFloat "10" = some 10 := by
    simp +decide [pyFloat, mantPart, afterMant, digitsVal, List.dropWhile, List.takeWhile]
  have htot : (structuredPhase cInpC1).steps_total = 10 := by
    simp only [structuredPhase, structuredSteps, cInpC1, valueNum, List.map_cons, List.map_nil,
      List.sum_cons, List.sum_nil, h10, Option.getD_some]
    norm_num [pyTruncInt]
  have hsteps : needSteps (structuredPhase cInpC1) = false := by simp [needSteps, htot]
  have hsleep : needSleep (structuredPhase cInpC1) = true := by decide
  have h := dual_path_fallback cInpC1 []
  exact ⟨h.1, hsteps, hsleep, (h.2.2.2.1 hsteps).1, (h.2.2.2.2.2.2.2.2.2.2.1 hsleep).1⟩

/-- C2 counterexample: the record value `"asleep"` (lowercase, not in the
allow-list).  The raw-scan path does NOT count it — `"Asleep" in raw` is
case-sensitive — while the structured path DOES (case-insensitive
`str.contains`), the exact opposite of the claimed asymmetry. -/
theorem sleep_case_asymmetry_cx :
    (scanRecordsOnce [⟨some sleepId, some 0, some 3600, some "asleep"⟩]).sleep_totalHours = 0 ∧
    structAsleepRow ⟨some 0, some 3600, some "asleep"⟩ = true := by
  constructor
  · have h : (scanFold [⟨some sleepId, some 0, some 3600, some "asleep"⟩]).sleep_total_hours
        = 0 := by
      rw [scanFold_sleep_total]
      simp +decide [sleepContrib, sleepValidB, isAsleepRaw]
    show pyRound2 (scanFold [⟨some sleepId, some 0, some 3600, some "asleep"⟩]).sleep_total_hours
        = 0
    rw [h]
    norm_num [pyRound2, pyRoundInt]
  · decide

/-- C2 amended: a sleep record whose value is outside the allow-list is
counted exactly when its value contains `"Asleep"` — CASE-SENSITIVELY in the
raw-scan path and CASE-INSENSITIVELY in the structured-table path (the claim
had the two paths swapped). -/
theorem sleep_substring_asymmetry (v : String) (st en : Int) (hst : st < en)
    (hv : v ∉ asleepValues) :
    ((scanFold [⟨some sleepId, some st, some en, some v⟩]).sleep_total_hours ≠ 0 ↔
       strContains v "Asleep" = true) ∧
    (structAsleepRow ⟨some st, some en, some v⟩ = true ↔ strContainsCI v "Asleep" = true) := by
  constructor
  · rw [scanFold_sleep_total]
    have hpos : (0 : ℚ) < (en : ℚ) - (st : ℚ) := by
      exact_mod_cast (by omega : (0 : Int) < en - st)
    by_cases hc : strContains v "Asleep" = true
    · simp +decide [sleepContrib, sleepValidB, isAsleepRaw, recHours, hst, hc, hv]
      exact ne_of_gt hpos
    · simp +decide [sleepContrib, sleepValidB, isAsleepRaw, recHours, hst, hc, hv]
  · simp [structAsleepRow, hv, strContainsCI]

theorem sleep_substring_asymmetry_witness :
    ((0 : Int) < 3600) ∧ ("asleep" ∉ asleepValues) ∧
    ((scanFold [⟨some sleepId, some 0, some 3600, some "asleep"⟩]).sleep_total_hours ≠ 0 ↔
       strContains "asleep" "Asleep" = true) ∧
    (structAsleepRow ⟨some 0, some 3600, some "asleep"⟩ = true ↔
       strContainsCI "asleep" "Asleep" = true) := by
  have h := sleep_substring_asymmetry "asleep" 0 3600 (by decide) (by decide)
  exact ⟨by decide, by decide, h.1, h.2⟩

/-- C3 counterexample: in the structured path a steps table holding values
`-5` and `10` (both with valid starts) produces total `5`, not the `10` that
summing only the strictly positive records would give — `fillna(0).sum()`
imposes no positivity or start-validity filter on the grand total. -/
theorem steps_structured_negative_cx :
    (structuredSteps (some [⟨some 0, none, some "-5"⟩, ⟨some 0, none, some "10"⟩])).1 = 5 ∧
    (structuredSteps (some [⟨some 0, none, some "-5"⟩, ⟨some 0, none, some "10"⟩])).1 ≠ 10 := by
  have hm5 : pyFloat "-5" = some (-5) := by
    simp +decide [pyFloat, mantPart, afterMant, digitsVal, List.dropWhile, List.takeWhile]
  have h10 : pyFloat "10" = some 10 := by
    simp +decide [pyFloat, mantPart, afterMant, digitsVal, List.dropWhile, List.takeWhile]
  have hstep : (structuredSteps (some [⟨some 0, none, some "-5"⟩, ⟨some 0, none, some "10"⟩])).1
      = pyTruncInt (((([⟨some 0, none, some "-5"⟩, ⟨some 0, none, some "10"⟩] : List Row)).map
          (fun r => (valueNum r).getD 0)).sum) := by
    simp only [structuredSteps]
    split <;> rfl
  rw [hstep]
  simp only [List.map_cons, List.map_nil, List.sum_cons, List.sum_nil, valueNum, hm5, h10,
    Option.getD_some]
  norm_num [pyTruncInt]

/-- C3 amended: in the SCAN path a step record contributes exactly when its
value is strictly positive and its start parses, and the reported total is
the rounded sum over exactly those records; in the STRUCTURED path the grand
total is the truncated sum of every numeric value — negative values and
records with unparseable starts included. -/
theorem steps_paths_totals (rs : List Record) (rows : List Row) (r : Record)
    (h0 : r.startDate = none ∨ floatOr0 r.value ≤ 0) :
    (scanRecordsOnce rs).steps_total = pyRoundInt ((rs.map stepContrib).sum) ∧
    (rs.map stepContrib).sum =
      ((rs.filter stepContribB).map (fun r0 => floatOr0 r0.value)).sum ∧
    stepContrib r = 0 ∧
    (structuredSteps (some rows)).1 =
      pyTruncInt ((rows.map (fun rw => (valueNum rw).getD 0)).sum) := by
  refine ⟨?_, ?_, ?_, ?_⟩
  · show pyRoundInt (scanFold rs).steps_total = _
    rw [scanFold_steps_total]
  · rw [← sum_ite_filter stepContribB (fun r0 => floatOr0 r0.value) rs]
    rfl
  · rcases h0 with h | h
    · simp [stepContrib, stepContribB, h]
    · have hd : ¬ (0 < floatOr0 r.value) := not_lt.2 h
      simp [stepContrib, stepContribB, hd]
  · simp only [structuredSteps]
    split <;> rfl

theorem steps_paths_totals_witness :
    ((⟨some stepsId, none, none, some "5"⟩ : Record).startDate = none ∨
      floatOr0 (⟨some stepsId, none, none, some "5"⟩ : Record).value ≤ 0) ∧
    stepContrib ⟨some stepsId, none, none, some "5"⟩ = 0 ∧
    (scanRecordsOnce []).steps_total = pyRoundInt ((([] : List Record).map stepContrib).sum) := by
  have h := steps_paths_totals [] [] ⟨some stepsId, none, none, some "5"⟩ (Or.inl rfl)
  exact ⟨Or.inl rfl, h.2.2.1, h.1⟩

/-- C4 counterexample: a mindful-session table row with `end == start` still
increments the structured-path session counter (`shape[0]` counts every
row), where the claim requires such records to contribute no session. -/
theorem mindful_structured_sessions_cx :
    (structuredMindful (some [⟨some 0, some 0, none⟩])).2 = 1 ∧
    (structuredMindful (some [⟨some 0, some 0, none⟩])).2 ≠ 0 :=
  ⟨rfl, by decide⟩

/-- C4 amended: in the SCAN path a mindful record adds its minutes and one
session exactly when both timestamps parse and end is strictly after start;
in the STRUCTURED path the minute total clips invalid durations to zero but
the session counter is the plain row count, so rows with missing or
non-increasing timestamps still count as sessions. -/
theorem mindful_paths (rs : List Record) (rows : List Row) (st en : Int) (hle : en ≤ st) :
    (scanFold rs).mindful_sessions = rs.countP mindfulValidB ∧
    (scanFold rs).mindful_total_min = (rs.map mindfulContrib).sum ∧
    mindfulValidB ⟨some mindfulId, some st, some en, none⟩ = false ∧
    (structuredMindful (some rows)).2 = rows.length ∧
    (structuredMindful (some rows)).1 = (rows.map rowMinutes).sum ∧
    rowMinutes ⟨some st, some en, none⟩ = 0 := by
  refine ⟨scanFold_mindful_sessions rs, scanFold_mindful_total rs, ?_, rfl, rfl, ?_⟩
  · simp +decide [mindfulValidB, not_lt.2 hle]
  · have h0' : ((en : ℚ) - (st : ℚ)) ≤ 0 := by
      exact_mod_cast (by omega : (en - st : Int) ≤ 0)
    have hnp : ((en : ℚ) - (st : ℚ)) / 60 ≤ 0 :=
      div_nonpos_of_nonpos_of_nonneg h0' (by norm_num)
    simp [rowMinutes, max_eq_left hnp]

theorem mindful_paths_witness :
    ((0 : Int) ≤ 0) ∧
    mindfulValidB ⟨some mindfulId, some 0, some 0, none⟩ = false ∧
    (structuredMindful (some [⟨some 0, some 0, none⟩])).2 = 1 ∧
    rowMinutes ⟨some 0, some 0, none⟩ = 0 := by
  have h := mindful_paths [] [⟨some 0, some 0, none⟩] 0 0 (le_refl 0)
  exact ⟨le_refl 0, h.2.2.1, by simpa using h.2.2.2.1, h.2.2.2.2.2⟩

/-- C5 counterexample: a structured sleep table with one valid 8-hour asleep
segment on day one and one zero-duration asleep-labelled segment
(`end == start`) on day two.  The claim's divisor (dates with at least one
VALID segment) is 1, giving average 8; the code's `nunique` divisor counts
the invalid segment's date too, giving average 4. -/
theorem sleep_divisor_cx :
    (structuredSleep (some [⟨some 0, some 28800, some "HKCategoryValueSleepAnalysisAsleep"⟩,
        ⟨some 86400, some 86400, some "1"⟩])).2.1 = 4 ∧
    (structuredSleep (some [⟨some 0, some 28800, some "HKCategoryValueSleepAnalysisAsleep"⟩,
        ⟨some 86400, some 86400, some "1"⟩])).2.1 ≠ 8 := by
  have hmask : ([⟨some 0, some 28800, some "HKCategoryValueSleepAnalysisAsleep"⟩,
      ⟨some 86400, some 86400, some "1"⟩] : List Row).filter structAsleepRow
      = [⟨some 0, some 28800, some "HKCategoryValueSleepAnalysisAsleep"⟩,
         ⟨some 86400, some 86400, some "1"⟩] := by decide
  have hdays : (rowDayKeys [(⟨some 0, some 28800,
      some "HKCategoryValueSleepAnalysisAsleep"⟩ : Row),
      ⟨some 86400, some 86400, some "1"⟩]).dedup.length = 2 := by decide
  have hh1 : rowHours ⟨some 0, some 28800, some "HKCategoryValueSleepAnalysisAsleep"⟩ = 8 := by
    simp [rowHours]
    norm_num
  have hh2 : rowHours ⟨some 86400, some 86400, some "1"⟩ = 0 := by
    simp [rowHours]
  constructor <;>
    (simp only [structuredSleep, hmask, List.isEmpty_cons, List.map_cons, List.map_nil,
      List.sum_cons, List.sum_nil, hh1, hh2, hdays]
     norm_num [pyRound2, pyRoundInt])

/-- C5 amended: in the SCAN path the divisor is the number of distinct UTC
start dates carrying at least one valid asleep segment (the date set is
duplicate-free and a date is in it exactly when some valid segment starts on
it); in the STRUCTURED path the divisor is `nunique` of start dates over all
asleep-LABELLED rows with a parseable start, including zero- or
negative-duration segments. -/
theorem sleep_divisor_paths (rs : List Record) (rows : List Row)
    (hne : ((rows.filter structAsleepRow).isEmpty) = false)
    (hpos : 0 < ((rows.filter structAsleepRow).map rowHours).sum) :
    ((scanFold rs).sleep_night_dates.Nodup) ∧
    (∀ x, x ∈ (scanFold rs).sleep_night_dates ↔
      ∃ r ∈ rs, sleepValidB r = true ∧ recDay r = x) ∧
    ((scanRecordsOnce rs).sleep_averageHours =
      if (scanFold rs).sleep_total_hours ≠ 0 then
        pyRound2 ((scanFold rs).sleep_total_hours /
          ((max 1 (scanFold rs).sleep_night_dates.length : Nat) : ℚ))
      else 0) ∧
    ((structuredSleep (some rows)).2.1 =
      pyRound2 (((rows.filter structAsleepRow).map rowHours).sum /
        ((if (rowDayKeys (rows.filter structAsleepRow)).dedup.length = 0 then 1
          else (rowDayKeys (rows.filter structAsleepRow)).dedup.length : Nat) : ℚ))) := by
  refine ⟨scanFold_dates_nodup rs, fun x => scanFold_dates_mem rs x, rfl, ?_⟩
  simp only [structuredSleep, hne, Bool.false_eq_true, if_false, hpos, if_pos]

theorem sleep_divisor_paths_witness :
    (([⟨some 0, some 28800, some "HKCategoryValueSleepAnalysisAsleep"⟩,
       ⟨some 86400, some 86400, some "1"⟩] : List Row).filter structAsleepRow).isEmpty = false ∧
    0 < ((([⟨some 0, some 28800, some "HKCategoryValueSleepAnalysisAsleep"⟩,
       ⟨some 86400, some 86400, some "1"⟩] : List Row).filter structAsleepRow).map rowHours).sum ∧
    ((scanFold []).sleep_night_dates.Nodup) ∧
    ((structuredSleep (some [⟨some 0, some 28800, some "HKCategoryValueSleepAnalysisAsleep"⟩,
        ⟨some 86400, some 86400, some "1"⟩])).2.1 =
      pyRound2 (((([⟨some 0, some 28800, some "HKCategoryValueSleepAnalysisAsleep"⟩,
          ⟨some 86400, some 86400, some "1"⟩] : List Row).filter structAsleepRow).map
            rowHours).sum /
        ((if (rowDayKeys (([⟨some 0, some 28800, some "HKCategoryValueSleepAnalysisAsleep"⟩,
            ⟨some 86400, some 86400, some "1"⟩] : List Row).filter
              structAsleepRow)).dedup.length = 0 then 1
          else (rowDayKeys (([⟨some 0, some 28800,
            some "HKCategoryValueSleepAnalysisAsleep"⟩,
            ⟨some 86400, some 86400, some "1"⟩] : List Row).filter
              structAsleepRow)).dedup.length : Nat) : ℚ))) := by
  have hne : (([⟨some 0, some 28800, some "HKCategoryValueSleepAnalysisAsleep"⟩,
      ⟨some 86400, some 86400, some "1"⟩] : List Row).filter structAsleepRow).isEmpty
      = false := by decide
  have hmask : ([⟨some 0, some 28800, some "HKCategoryValueSleepAnalysisAsleep"⟩,
      ⟨some 86400, some 86400, some "1"⟩] : List Row).filter structAsleepRow
      = [⟨some 0, some 28800, some "HKCategoryValueSleepAnalysisAsleep"⟩,
         ⟨some 86400, some 86400, some "1"⟩] := by decide
  have hh1 : rowHours ⟨some 0, some 28800, some "HKCategoryValueSleepAnalysisAsleep"⟩ = 8 := by
    simp [rowHours]
    norm_num
  have hh2 : rowHours ⟨some 86400, some 86400, some "1"⟩ = 0 := by
    simp [rowHours]
  have hpos : 0 < ((([⟨some 0, some 28800, some "HKCategoryValueSleepAnalysisAsleep"⟩,
      ⟨some 86400, some 86400, some "1"⟩] : List Row).filter structAsleepRow).map
        rowHours).sum := by
    rw [hmask]
    simp only [List.map_cons, List.map_nil, List.sum_cons, List.sum_nil, hh1, hh2]
    norm_num
  have h := sleep_divisor_paths []
    [⟨some 0, some 28800, some "HKCategoryValueSleepAnalysisAsleep"⟩,
     ⟨some 86400, some 86400, some "1"⟩] hne hpos
  exact ⟨hne, hpos, h.1, h.2.2.2⟩

/-- C6 counterexample: a structured heart-rate table with values `-10` and
`10`.  Records with non-positive values are claimed to contribute nothing —
the simple mean over the positive records would be 10 — but the structured
path averages over every numeric value and reports 0. -/
theorem hr_structured_nonpositive_cx :
    structuredHr (some [⟨none, none, some "-10"⟩, ⟨none, none, some "10"⟩]) = 0 ∧
    structuredHr (some [⟨none, none, some "-10"⟩, ⟨none, none, some "10"⟩]) ≠ 10 := by
  have hm10 : pyFloat "-10" = some (-10) := by
    simp +decide [pyFloat, mantPart, afterMant, digitsVal, List.dropWhile, List.takeWhile]
  have h10 : pyFloat "10" = some 10 := by
    simp +decide [pyFloat, mantPart, afterMant, digitsVal, List.dropWhile, List.takeWhile]
  constructor <;>
    (simp only [structuredHr, List.filterMap_cons, List.filterMap_nil, valueNum, hm10, h10]
     norm_num [pyRoundInt])

/-- C6 amended: in the SCAN path heart-rate and resting-heart-rate records
contribute to a running sum and count exactly when their value is strictly
positive (no time bucketing exists for them), and the average is the rounded
simple mean, 0 when the count is zero; in the STRUCTURED path the mean is
over ALL numeric values, non-positive ones included — only non-numeric
values drop out. -/
theorem hr_paths (rs : List Record) (rows : List Row) (r : Record)
    (h : floatOr0 r.value ≤ 0) :
    (scanFold rs).hr_sum = ((rs.filter hrPosB).map (fun r0 => floatOr0 r0.value)).sum ∧
    (scanFold rs).hr_count = rs.countP hrPosB ∧
    (scanFold rs).rhr_sum = ((rs.filter rhrPosB).map (fun r0 => floatOr0 r0.value)).sum ∧
    (scanFold rs).rhr_count = rs.countP rhrPosB ∧
    hrContrib r = 0 ∧
    rhrContrib r = 0 ∧
    ((scanRecordsOnce rs).heart_avg =
      if (scanFold rs).hr_count ≠ 0 then
        pyRoundInt ((scanFold rs).hr_sum / ((scanFold rs).hr_count : ℚ))
      else 0) ∧
    (structuredHr (some rows) =
      if (rows.filterMap valueNum).length ≠ 0 then
        pyRoundInt ((rows.filterMap valueNum).sum / ((rows.filterMap valueNum).length : ℚ))
      else 0) := by
  have hd : ¬ (0 < floatOr0 r.value) := not_lt.2 h
  refine ⟨?_, scanFold_hr_count rs, ?_, scanFold_rhr_count rs, ?_, ?_, rfl, rfl⟩
  · rw [scanFold_hr_sum, ← sum_ite_filter hrPosB (fun r0 => floatOr0 r0.value) rs]
    rfl
  · rw [scanFold_rhr_sum, ← sum_ite_filter rhrPosB (fun r0 => floatOr0 r0.value) rs]
    rfl
  · simp [hrContrib, hrPosB, hd]
  · simp [rhrContrib, rhrPosB, hd]

theorem hr_paths_witness :
    floatOr0 (some "-10") ≤ 0 ∧
    hrContrib ⟨some hrId, none, none, some "-10"⟩ = 0 ∧
    (scanFold []).hr_count = ([] : List Record).countP hrPosB := by
  have hm10 : pyFloat "-10" = some (-10) := by
    simp +decide [pyFloat, mantPart, afterMant, digitsVal, List.dropWhile, List.takeWhile]
  have hv : floatOr0 (some "-10") ≤ 0 := by
    simp [floatOr0, hm10]
  have h := hr_paths [] [] ⟨some hrId, none, none, some "-10"⟩ hv
  exact ⟨hv, h.2.2.2.2.1, h.2.1⟩
